import Mathlib

/-!
# Timeseries_automation — verification of the Forecast Pipeline Core

A shallow embedding of the forecasting primitives (`src/forecasting/models.py`)
and the pipeline orchestrator (`src/pipeline.py`) of the
`M-LN/Timeseries_automation` repository, together with theorems settling the
specification claims about them.

Modelling conventions:

* A pandas `Series` is a list of `(label, value)` pairs (`PSeries`): the label
  is the pandas index entry (an integer — either a row position or an
  hour-granularity timestamp), the value a price.  Prices are `ℚ`; none of the
  verified claims depends on binary floating-point rounding, and every claim
  is settled for exact arithmetic.
* Python `float` NaN arises in this code only as `np.mean` of an empty
  selection; a mean is therefore modelled as `Option ℚ` with `none` playing
  the role of NaN.
* Fallible Python code returns `Except`.  Both error branches of
  `naive_forecast` raise `ValueError` in Python; the embedding distinguishes
  the explicit guard (`insufficientData`, message "Series must contain at
  least 'horizon' values") from the `pd.Series(data, index)` length-mismatch
  error raised by the constructor (`broadcastMismatch`), because they come
  from different places in the source.
* Functions of the runtime that the source calls but does not define
  (`math.sin` on float, the seeded `np.random.default_rng(..).normal` stream,
  `math.sqrt`) are passed in as explicit function parameters; nothing proved
  depends on their values.
-/

/-- Index labels of a pandas series/frame: `Int` (row position or hour stamp). -/
abbrev Label := Int

/-- A pandas `Series`: ordered (label, value) pairs. -/
abbrev PSeries := List (Label × ℚ)

/-- Clamp one endpoint of a Python slice `s[a:b]` to an absolute position,
mirroring CPython slice normalisation: negative indices count from the end
(clamped at 0), non-negative ones are clamped at `len`. -/
def sliceIdx (len : Nat) (i : Int) : Nat :=
  if i < 0 then (i + len).toNat else min i.toNat len

/-- Python slice `s[a:b]` (equivalently `iloc[a:b]`) on a list. -/
def pySlice (s : PSeries) (a b : Int) : PSeries :=
  (s.take (sliceIdx s.length b)).drop (sliceIdx s.length a)

/-- `pandas.Series.tail(n)`: the last `n` rows (`iloc[-n:]`); `tail 0` is
empty. -/
def pdTail (s : PSeries) (n : Nat) : PSeries :=
  if n = 0 then [] else pySlice s (-(n : Int)) s.length

/-- Errors surfaced by the forecasting primitives.  In Python all three are
`ValueError`; the spec's taxonomy names the first two `InsufficientDataError`
and `InvalidParameterError`. -/
inductive PdError where
  /-- the guard in `naive_forecast`:
  `ValueError("Series must contain at least 'horizon' values")` -/
  | insufficientData
  /-- the guards in `train_test_split` -/
  | invalidParameter
  /-- the `pd.Series(values, index)` constructor error raised when
  `np.repeat(last, horizon)` and `y_true.index` have different lengths -/
  | broadcastMismatch
deriving DecidableEq, Repr

/-- `ForecastResult` from `src/forecasting/models.py`: the holdout ground
truth `y_true` and the model output `y_pred`. -/
structure ForecastResult where
  y_true : PSeries
  y_pred : PSeries
deriving DecidableEq, Repr

/-- `np.mean` over a list of rationals: `none` models the float NaN that
numpy returns for an empty selection. -/
def npMean (xs : List ℚ) : Option ℚ :=
  if xs = [] then none else some (xs.sum / xs.length)

/-- `ForecastResult.mae`: `mean(|y_true - y_pred|)` (positional arithmetic;
the pipeline only ever builds results whose two series share one index). -/
def ForecastResult.mae (r : ForecastResult) : Option ℚ :=
  npMean (((r.y_true.map Prod.snd).zip (r.y_pred.map Prod.snd)).map
    (fun ap => |ap.1 - ap.2|))

/-- The mean of squared errors; `ForecastResult.rmse` is `sqrtFn` of this
(float `np.sqrt` is kept abstract). -/
def ForecastResult.mse (r : ForecastResult) : Option ℚ :=
  npMean (((r.y_true.map Prod.snd).zip (r.y_pred.map Prod.snd)).map
    (fun ap => (ap.1 - ap.2) ^ 2))

/-- `ForecastResult.rmse`, parameterised by the runtime's square root. -/
def ForecastResult.rmse (sqrtFn : ℚ → ℚ) (r : ForecastResult) : Option ℚ :=
  (r.mse).map sqrtFn

/-- `ForecastResult.mape`: rows with `y_true == 0` are masked out, then
`mean(|(y_true - y_pred) / y_true|) * 100`; the mean of an empty masked
selection is NaN (`none`). -/
def ForecastResult.mape (r : ForecastResult) : Option ℚ :=
  let pairs := (r.y_true.map Prod.snd).zip (r.y_pred.map Prod.snd)
  let masked := pairs.filter (fun ap => ap.1 ≠ 0)
  (npMean (masked.map (fun ap => |(ap.1 - ap.2) / ap.1|))).map (· * 100)

/-- `naive_forecast(series, horizon)` from `src/forecasting/models.py`:

* `y_true = series.tail(horizon)`; raises the insufficient-data `ValueError`
  when that is empty;
* `y_pred = pd.Series(np.repeat(series.iloc[-1], horizon), index=y_true.index)`
  — the constructor raises when `horizon ≠ len(y_true)`, i.e. when
  `0 < len(series) < horizon`. -/
def naive_forecast (series : PSeries) (horizon : Nat) :
    Except PdError ForecastResult :=
  let y_true := pdTail series horizon
  if y_true.isEmpty then
    .error .insufficientData
  else if horizon = y_true.length then
    .ok ⟨y_true, y_true.map (fun p => (p.1, (series.map Prod.snd).getLastD 0))⟩
  else
    .error .broadcastMismatch

/-- `train_test_split(series, test_size)` from `src/forecasting/models.py`:
guards `test_size <= 0` and `test_size >= len(series)`, then returns
`(series.iloc[:-test_size], series.iloc[-test_size:])`. -/
def train_test_split (series : PSeries) (test_size : Int) :
    Except PdError (PSeries × PSeries) :=
  if test_size ≤ 0 then .error .invalidParameter
  else if (series.length : Int) ≤ test_size then .error .invalidParameter
  else .ok (pySlice series 0 (-test_size),
            pySlice series (-test_size) series.length)

/-- `RollingWindowConfig` from `src/forecasting/models.py`. -/
structure RollingWindowConfig where
  window_size : Nat
  step_size : Nat := 1
deriving DecidableEq, Repr

/-- Number of elements of Python `range(start, stop, step)` (for `step = 0`
Python raises; the count is defined as 0 there, a value no theorem relies
on). -/
def pyRangeCount (start stop step : Int) : Nat :=
  if 0 < step then ((stop - start + step - 1) / step).toNat
  else if step < 0 then ((start - stop - step - 1) / (-step)).toNat
  else 0

/-- Python `range(start, stop, step)` as a list. -/
def pyRange (start stop step : Int) : List Int :=
  (List.range (pyRangeCount start stop step)).map
    (fun (i : Nat) => start + (i : Int) * step)

/-- `rolling_forecast(series, horizon, config)` from
`src/forecasting/models.py`: for each `start` in
`range(window_size, len(series) - horizon + 1, step_size)` the generator
yields `naive_forecast` of `series.iloc[start-window_size:start]` concatenated
with `series.iloc[start:start+horizon]`.  The generator is embedded as the
list of the per-start outcomes (an `error` element marks a trial on which the
Python generator raises instead of yielding). -/
def rolling_forecast (series : PSeries) (horizon : Nat)
    (config : RollingWindowConfig) : List (Except PdError ForecastResult) :=
  (pyRange config.window_size ((series.length : Int) - horizon + 1)
      config.step_size).map
    (fun start =>
      naive_forecast
        (pySlice series (start - config.window_size) start ++
          pySlice series start (start + horizon)) horizon)

/-- The metrics bundle built by `ForecastPipeline._collect_metrics`
(`src/pipeline.py`).  `rmse`, `mae`, `mape` are `Option ℚ` because each is an
`np.mean`-derived float that is NaN on an empty selection. -/
structure Metrics where
  latest : ℚ
  previous : ℚ
  delta_pct : ℚ
  rmse : Option ℚ
  mae : Option ℚ
  mape : Option ℚ
deriving DecidableEq, Repr

/-- `ForecastPipeline._collect_metrics(result)`:

* `latest = float(result.y_pred.iloc[-1])` — `none` models the `IndexError`
  Python raises on an empty `y_pred` (never reached from `run`);
* `previous = float(result.y_true.iloc[-2]) if len(result.y_true) > 1 else latest`;
* `delta_pct = ((latest - previous) / previous) * 100 if previous else 0.0`. -/
def collect_metrics (sqrtFn : ℚ → ℚ) (r : ForecastResult) : Option Metrics :=
  match (r.y_pred.map Prod.snd).getLast? with
  | none => none
  | some latest =>
    let previous : ℚ :=
      if 1 < r.y_true.length then
        (r.y_true.map Prod.snd).getD (r.y_true.length - 2) 0
      else latest
    let delta_pct : ℚ :=
      if previous ≠ 0 then ((latest - previous) / previous) * 100 else 0
    some ⟨latest, previous, delta_pct, r.rmse sqrtFn, r.mae, r.mape⟩

/-- The information content of the Slack text built by
`ForecastPipeline._build_message` (string formatting of floats is abstracted;
these fields are exactly the data interpolated into the message). -/
structure Message where
  latest : ℚ
  arrowUp : Bool
  delta_abs : ℚ
  rmse : Option ℚ
  mae : Option ℚ
  mape : Option ℚ
deriving DecidableEq, Repr

/-- `ForecastPipeline._build_message(metrics)`: the arrow is `↑` iff
`delta_pct >= 0`, and the message shows `abs(delta_pct)` and the error
metrics. -/
def build_message (m : Metrics) : Message :=
  ⟨m.latest, decide (0 ≤ m.delta_pct), |m.delta_pct|, m.rmse, m.mae, m.mape⟩

/-- `ForecastPipeline._generate_synthetic_frame(target_date, horizon)`:
`hours = max(horizon + 48, 72)` hourly rows ending at the target date's start
of day.  Timestamps are hours since epoch, so the start of day of the date
with ordinal `targetOrdinal` is `24 * targetOrdinal`.  The price of row `i` is
`60 + 5*sin(2π·i/24)` plus the `np.linspace(-2, 2, hours)` trend plus the
`i`-th draw of `np.random.default_rng(seed=target_date.toordinal()).normal(0, 1.5, hours)`.
`sinFn i` abstracts the float `sin(2π·i/24)` and `normalDraw seed i` the
seeded normal stream; `ambientRng` models the process-global numpy RNG state,
which the source never touches (it builds a fresh generator from the date's
ordinal), so the result does not depend on it. -/
def generate_synthetic_frame (sinFn : Nat → ℚ) (normalDraw : Nat → Nat → ℚ)
    (ambientRng : Nat → ℚ) (targetOrdinal : Nat) (horizon : Int) : PSeries :=
  let hours : Nat := (max (horizon + 48) 72).toNat
  let start : Int := 24 * (targetOrdinal : Int) - ((hours : Int) - 1)
  (List.range hours).map (fun (i : Nat) =>
    (start + (i : Int),
      60 + 5 * sinFn i + (-2 + 4 * (i : ℚ) / ((hours : ℚ) - 1)) +
        normalDraw targetOrdinal i))

/-- The configured credential surface read by the pipeline
(`settings.apis` in `src/config.py`); `none` = variable not set. -/
structure ApiSettings where
  nordpool_api_key : Option String := none
  slack_token : Option String := none
  notion_token : Option String := none
  notion_database_id : Option String := none
  github_token : Option String := none
  github_repo : Option String := none
deriving DecidableEq, Repr

/-- What `fetch_spot_prices` handed back, after JSON decoding:
whether `{"DateTime", "SpotPrice"}` is a subset of the frame's columns, and
the rows after `pd.to_datetime(..., errors="coerce")` /
`pd.to_numeric(..., errors="coerce")` (a `none` field is a coercion NaT/NaN,
dropped by `dropna`). -/
structure FetchedData where
  hasCols : Bool
  rows : List (Option Label × Option ℚ)
deriving DecidableEq, Repr

/-- One run's external world: configuration, the current date, the runtime
functions the source calls but does not define, and the outcome of each
outbound call (`.error` = that call raised). -/
structure Env where
  settings : ApiSettings
  /-- `date.today().toordinal()` -/
  today : Nat
  /-- outcome of `fetch_spot_prices` (consulted only when a Nord Pool key is
  configured) -/
  fetchOutcome : Except String FetchedData
  sinFn : Nat → ℚ
  normalDraw : Nat → Nat → ℚ
  ambientRng : Nat → ℚ
  sqrtFn : ℚ → ℚ
  /-- outcome of `slack_notifier.post_message` -/
  slackPostOutcome : Except String Unit
  /-- `callable(getattr(self.slack_notifier, "upload_file", None))` -/
  notifierHasUpload : Bool
  /-- outcome of `slack_notifier.upload_file` -/
  uploadOutcome : Except String Unit
  /-- path returned by `render_forecast_plot` (assumed total, spec §4.4) -/
  renderPath : String
  /-- outcome of `record_forecast_run` -/
  dbOutcome : Except String Unit
  /-- outcome of `NotionLogger.log_forecast` -/
  notionOutcome : Except String Unit
  /-- outcome of `committer.commit_file` (the plot) -/
  githubPlotOutcome : Except String Unit
  /-- outcome of `committer.commit_text` (the history JSON) -/
  githubHistoryOutcome : Except String Unit

/-- Stable insertion of a row into a label-sorted list
(`sort_values("DateTime")`; no verified claim depends on tie order). -/
def insertByLabel (x : Label × ℚ) : PSeries → PSeries
  | [] => [x]
  | y :: ys => if y.1 ≤ x.1 then y :: insertByLabel x ys else x :: y :: ys

/-- `frame.sort_values("DateTime")`. -/
def sortByLabel : PSeries → PSeries
  | [] => []
  | x :: xs => insertByLabel x (sortByLabel xs)

/-- The coercion-and-`dropna(subset=["DateTime", "SpotPrice"])` step of
`_load_price_frame`: rows whose timestamp or price failed coercion are
dropped. -/
def coerceRows (rows : List (Option Label × Option ℚ)) : PSeries :=
  rows.filterMap (fun r =>
    match r with
    | (some t, some p) => some (t, p)
    | _ => none)

/-- `ForecastPipeline._load_price_frame(horizon)`: synthetic fallback when no
Nord Pool key is configured, when the fetch raises, when the response lacks
the two columns, or when the cleaned frame has `len <= horizon` rows;
otherwise the cleaned, sorted live frame tagged `"api"`. -/
def load_price_frame (env : Env) (horizon : Int) : PSeries × String :=
  match env.settings.nordpool_api_key with
  | none =>
    (generate_synthetic_frame env.sinFn env.normalDraw env.ambientRng
        env.today horizon, "synthetic")
  | some _ =>
    match env.fetchOutcome with
    | .error _ =>
      (generate_synthetic_frame env.sinFn env.normalDraw env.ambientRng
          env.today horizon, "synthetic")
    | .ok data =>
      if data.hasCols then
        let frame := sortByLabel (coerceRows data.rows)
        if horizon < (frame.length : Int) then (frame, "api")
        else
          (generate_synthetic_frame env.sinFn env.normalDraw env.ambientRng
              env.today horizon, "synthetic")
      else
        (generate_synthetic_frame env.sinFn env.normalDraw env.ambientRng
            env.today horizon, "synthetic")

/-- The shaping step of `run`: `add_calendar_features` derives calendar
columns (never NaN), `add_lag_features(frame, "SpotPrice", lags=[1, 24])`
leaves NaN lags in the first 24 rows, and `frame.dropna()` removes exactly
those rows.  The `frame["SpotPrice"]` series that reaches the splitter keeps
the surviving rows' positional labels `24, 25, …` of the frame's
`RangeIndex`. -/
def shapeSeries (frame : PSeries) : PSeries :=
  ((frame.map Prod.snd).enum.map (fun ip => ((ip.1 : Int), ip.2))).drop 24

/-- The external calls `run` makes, in order of attempt. -/
inductive Step where
  | fetch
  | slackPost
  | render
  | slackUpload
  | dbRecord
  | notionLog
  | githubPlot
  | githubHistory
deriving DecidableEq, Repr

/-- Exceptions escaping `ForecastPipeline.run`.  The first three are the
spec's fatal classes; `unexpected` stands for any other escaping exception
(the pandas broadcast `ValueError` or the `IndexError` of
`_collect_metrics`), and is proved unreachable. -/
inductive FatalError where
  | insufficientData
  | invalidParameter
  | slackFailure
  | unexpected
deriving DecidableEq, Repr

/-- `PipelineOutput` from `src/pipeline.py`. -/
structure PipelineOutput where
  forecast : ForecastResult
  message : Message
  report_path : String
  metrics : Metrics
  data_source : String
deriving DecidableEq, Repr

/-- The best-effort tail of a successful run's call sequence:
`_maybe_upload_chart` (gated on the notifier capability and a Slack token,
its failure caught), `_persist_run` (`record_forecast_run` always attempted,
its failure caught; then `sync_to_notion`, whose API call is gated on the
Notion credentials and caught), and `_maybe_commit_to_github` (gated on the
GitHub credentials; inside one `try`, so the history commit is attempted only
when the plot commit did not raise). -/
def bestEffortTrace (env : Env) : List Step :=
  (if env.notifierHasUpload && env.settings.slack_token.isSome then
      [Step.slackUpload] else []) ++
  [Step.dbRecord] ++
  (if env.settings.notion_token.isSome &&
      env.settings.notion_database_id.isSome then [Step.notionLog] else []) ++
  (if env.settings.github_token.isSome && env.settings.github_repo.isSome then
      Step.githubPlot ::
        (match env.githubPlotOutcome with
         | .ok _ => [Step.githubHistory]
         | .error _ => [])
    else [])

/-- `ForecastPipeline.run(horizon)` (`src/pipeline.py`), returning the
escaping exception or the `PipelineOutput`, paired with the trace of external
calls attempted.  Stages: `_load_price_frame` → shaping →
`if len(frame) <= horizon: raise` → `train_test_split(series, horizon)` →
`naive_forecast(concat([train, test]), horizon)` → `_collect_metrics` →
`_build_message` → Slack `post_message` (failure propagates) →
`render_forecast_plot` → best-effort fan-out → `PipelineOutput`. -/
def run (env : Env) (horizon : Int) :
    Except FatalError PipelineOutput × List Step :=
  let loaded := load_price_frame env horizon
  let t0 : List Step :=
    if env.settings.nordpool_api_key.isSome then [Step.fetch] else []
  let series := shapeSeries loaded.1
  if (series.length : Int) ≤ horizon then (.error .insufficientData, t0)
  else
    match train_test_split series horizon with
    | .error _ => (.error .invalidParameter, t0)
    | .ok (train, test) =>
      match naive_forecast (train ++ test) horizon.toNat with
      | .error .insufficientData => (.error .insufficientData, t0)
      | .error .invalidParameter => (.error .unexpected, t0)
      | .error .broadcastMismatch => (.error .unexpected, t0)
      | .ok result =>
        match collect_metrics env.sqrtFn result with
        | none => (.error .unexpected, t0)
        | some metrics =>
          match env.slackPostOutcome with
          | .error _ => (.error .slackFailure, t0 ++ [Step.slackPost])
          | .ok _ =>
            (.ok ⟨result, build_message metrics, env.renderPath, metrics,
                loaded.2⟩,
              t0 ++ [Step.slackPost, Step.render] ++ bestEffortTrace env)

/-- A four-point sample series used by the concrete counterexamples:
values 10, 20, 30, 40 at positions 0..3. -/
def sampleSeries : PSeries := [(0, 10), (1, 20), (2, 30), (3, 40)]

/-- The concrete `ForecastResult` of `naive_forecast sampleSeries 3`. -/
def sampleResult : ForecastResult :=
  ⟨[(1, 20), (2, 30), (3, 40)], [(1, 40), (2, 40), (3, 40)]⟩

/-- The metrics bundle of `sampleResult` (with the identity standing in for
`np.sqrt`, irrelevant to the fields under test). -/
def sampleMetrics : Metrics :=
  ⟨40, 30, 100 / 3, some (500 / 3), some 10, some (400 / 9)⟩

/-- `env` with the five best-effort call outcomes replaced: chart upload,
database insert, Notion page creation, GitHub plot commit, GitHub history
commit. -/
def withBestEffort (env : Env) (u d n g1 g2 : Except String Unit) : Env :=
  { env with
    uploadOutcome := u
    dbOutcome := d
    notionOutcome := n
    githubPlotOutcome := g1
    githubHistoryOutcome := g2 }

/-- A concrete environment for witnesses: no credentials configured (so the
resolver synthesises data), all external calls succeed, and the abstracted
runtime functions are constant. -/
def envOk : Env where
  settings := {}
  today := 739000
  fetchOutcome := .error "no key configured, never consulted"
  sinFn := fun _ => 0
  normalDraw := fun _ _ => 0
  ambientRng := fun _ => 0
  sqrtFn := fun _ => 0
  slackPostOutcome := .ok ()
  notifierHasUpload := false
  uploadOutcome := .ok ()
  renderPath := "reports/plots/forecast.png"
  dbOutcome := .ok ()
  notionOutcome := .ok ()
  githubPlotOutcome := .ok ()
  githubHistoryOutcome := .ok ()

/-- `envOk` with a failing Slack `post_message`. -/
def envSlackFail : Env :=
  { envOk with slackPostOutcome := .error "slack api error" }

/-- A six-point series used by the rolling-forecast witness. -/
def rollSample : PSeries := [(0, 1), (1, 2), (2, 3), (3, 4), (4, 5), (5, 6)]

/-! ## Basic facts about the pandas-slice embedding -/

theorem sliceIdx_coe_nat (len n : Nat) : sliceIdx len (n : Int) = min n len := by
  unfold sliceIdx
  simp [Int.toNat_ofNat]

theorem sliceIdx_neg_nat (len n : Nat) (hn : 0 < n) :
    sliceIdx len (-(n : Int)) = len - n := by
  unfold sliceIdx
  have h1 : -(n : Int) < 0 := by omega
  rw [if_pos h1]
  omega

theorem pdTail_eq_drop (s : PSeries) (n : Nat) :
    pdTail s n = s.drop (s.length - n) := by
  rcases Nat.eq_zero_or_pos n with h | h
  · subst h
    simp [pdTail]
  · have hn : n ≠ 0 := by omega
    unfold pdTail pySlice
    rw [if_neg hn, sliceIdx_neg_nat _ _ h, sliceIdx_coe_nat]
    simp

theorem pdTail_length (s : PSeries) (n : Nat) :
    (pdTail s n).length = min n s.length := by
  rw [pdTail_eq_drop]
  simp only [List.length_drop]
  omega

/-! ## Characterisation of `naive_forecast` -/

theorem naive_forecast_def (s : PSeries) (h : Nat) :
    naive_forecast s h =
      if (s.drop (s.length - h)).isEmpty then .error .insufficientData
      else if h = (s.drop (s.length - h)).length then
        .ok ⟨s.drop (s.length - h),
          (s.drop (s.length - h)).map
            (fun p => (p.1, (s.map Prod.snd).getLastD 0))⟩
      else .error .broadcastMismatch := by
  unfold naive_forecast
  rw [pdTail_eq_drop]

theorem drop_sub_length (s : PSeries) (h : Nat) :
    (s.drop (s.length - h)).length = min h s.length := by
  simp only [List.length_drop]
  omega

theorem naive_forecast_ok_char (s : PSeries) (h : Nat) (r : ForecastResult) :
    naive_forecast s h = .ok r ↔
      1 ≤ h ∧ h ≤ s.length ∧
        r = ⟨s.drop (s.length - h),
          (s.drop (s.length - h)).map
            (fun p => (p.1, (s.map Prod.snd).getLastD 0))⟩ := by
  rw [naive_forecast_def]
  have hlen := drop_sub_length s h
  split
  · rename_i hemp
    have h0 := List.isEmpty_iff_length_eq_zero.mp hemp
    constructor
    · intro hc
      cases hc
    · rintro ⟨h1, h2, -⟩
      omega
  · rename_i hemp
    have h0 : (s.drop (s.length - h)).length ≠ 0 := by
      intro hc
      exact hemp (List.isEmpty_iff_length_eq_zero.mpr hc)
    split
    · rename_i hh
      constructor
      · intro hc
        cases hc
        exact ⟨by omega, by omega, rfl⟩
      · rintro ⟨-, -, hr⟩
        rw [hr]
    · rename_i hh
      constructor
      · intro hc
        cases hc
      · rintro ⟨h1, h2, -⟩
        omega

theorem naive_forecast_insufficient_char (s : PSeries) (h : Nat) :
    naive_forecast s h = .error .insufficientData ↔ h = 0 ∨ s = [] := by
  rw [naive_forecast_def]
  have hlen := drop_sub_length s h
  split
  · rename_i hemp
    have h0 := List.isEmpty_iff_length_eq_zero.mp hemp
    simp only [true_iff]
    rcases Nat.eq_zero_or_pos h with h1 | h1
    · exact Or.inl h1
    · exact Or.inr (List.length_eq_zero.mp (by omega))
  · rename_i hemp
    have h0 : (s.drop (s.length - h)).length ≠ 0 := by
      intro hc
      exact hemp (List.isEmpty_iff_length_eq_zero.mpr hc)
    have hs : s.length ≠ 0 := by omega
    have hs' : s ≠ [] := by
      intro hc
      exact hs (by rw [hc]; rfl)
    split
    · constructor
      · intro hc
        cases hc
      · rintro (h1 | h1)
        · omega
        · exact absurd h1 hs'
    · constructor
      · intro hc
        injection hc with hc'
        cases hc'
      · rintro (h1 | h1)
        · omega
        · exact absurd h1 hs'

theorem naive_forecast_mismatch_char (s : PSeries) (h : Nat) :
    naive_forecast s h = .error .broadcastMismatch ↔
      0 < s.length ∧ s.length < h := by
  rw [naive_forecast_def]
  have hlen := drop_sub_length s h
  split
  · rename_i hemp
    have h0 := List.isEmpty_iff_length_eq_zero.mp hemp
    constructor
    · intro hc
      cases hc
    · rintro ⟨h1, h2⟩
      omega
  · rename_i hemp
    have h0 : (s.drop (s.length - h)).length ≠ 0 := by
      intro hc
      exact hemp (List.isEmpty_iff_length_eq_zero.mpr hc)
    split
    · rename_i hh
      constructor
      · intro hc
        cases hc
      · rintro ⟨h1, h2⟩
        omega
    · rename_i hh
      simp only [true_iff]
      constructor <;> omega

/-- **C1, counterexample.**  The claim says `naive_forecast(s, horizon).predicted`
is constant at `s[-horizon-1]`, the last observed value strictly before the
holdout.  On `sampleSeries = [10, 20, 30, 40]` with `horizon = 3` that value
is `10` (`pySlice sampleSeries 0 (-3)` is exactly the part of the series
before the holdout), but the code repeats `series.iloc[-1] = 40` — the last
element *inside* the holdout. -/
theorem naive_forecast_predicted_cx :
    (naive_forecast sampleSeries 3).toOption.map
        (fun r => r.y_pred.map Prod.snd) = some [40, 40, 40] ∧
      (pySlice sampleSeries 0 (-3)).map Prod.snd = [10] ∧ (40 : ℚ) ≠ 10 := by
  refine ⟨?_, by decide, by decide⟩
  rfl

/-- **C1, amended.**  For `1 ≤ horizon ≤ len(series)`,
`naive_forecast(series, horizon).predicted` is a constant sequence of length
`horizon` whose every element equals `series.iloc[-1]` — the last observed
value of the whole series, which is the final element of the holdout window
itself (not the value preceding the window). -/
theorem naive_forecast_predicted_is_last_value (s : PSeries) (h : Nat)
    (h1 : 1 ≤ h) (h2 : h ≤ s.length) :
    ∃ r, naive_forecast s h = .ok r ∧
      r.y_pred.map Prod.snd =
        List.replicate h ((s.map Prod.snd).getLastD 0) := by
  refine ⟨_, (naive_forecast_ok_char s h _).mpr ⟨h1, h2, rfl⟩, ?_⟩
  simp only [List.map_map]
  have hlen := drop_sub_length s h
  rw [List.eq_replicate_iff]
  constructor
  · simp only [List.length_map]
    omega
  · intro b hb
    simp only [List.mem_map] at hb
    rcases hb with ⟨p, -, hp⟩
    exact hp.symm

/-- **C1 witness**: the amended statement applied to `sampleSeries` with
horizon 3 (predicted constant at the series' last value 40). -/
theorem naive_forecast_predicted_is_last_value_witness :
    ∃ r, naive_forecast sampleSeries 3 = .ok r ∧
      r.y_pred.map Prod.snd = List.replicate 3 ((40 : ℚ)) :=
  naive_forecast_predicted_is_last_value sampleSeries 3 (by decide) (by decide)

/-- **C2, counterexample.**  The claim says the call fails with
`InsufficientDataError` exactly when `len(s) < horizon`.  Both directions
fail on the code: on `([(0, 5)], horizon = 2)` the series is shorter than the
horizon yet the escaping error is the pandas length-mismatch `ValueError`
raised by `pd.Series(np.repeat(..., 2), index=...)`, not the insufficient-data
guard (which compares against the wrong length: `series.tail(horizon)` is
never empty for a non-empty series); and on `(sampleSeries, horizon = 0)` the
guard fires although the series has at least `horizon` observations. -/
theorem naive_forecast_error_class_cx :
    naive_forecast [((0 : Int), (5 : ℚ))] 2 = .error .broadcastMismatch ∧
      PdError.broadcastMismatch ≠ PdError.insufficientData ∧
      naive_forecast sampleSeries 0 = .error .insufficientData ∧
      ¬ sampleSeries.length < 0 := by
  exact ⟨rfl, by decide, rfl, by decide⟩

/-- **C2, amended.**  `naive_forecast(s, horizon)` fails exactly when
`horizon = 0` or `len(s) < horizon`; the insufficient-data guard error is
raised precisely when the holdout window is empty (`horizon = 0` or `s`
empty), while for `0 < len(s) < horizon` the call still raises rather than
returning a result — but with the pandas length-mismatch error, not the
guard. -/
theorem naive_forecast_not_invalid (s : PSeries) (h : Nat) :
    naive_forecast s h ≠ .error .invalidParameter := by
  rw [naive_forecast_def]
  split
  · intro hc
    injection hc with hc'
    cases hc'
  · split
    · intro hc
      cases hc
    · intro hc
      injection hc with hc'
      cases hc'

theorem naive_forecast_failure_char (s : PSeries) (h : Nat) :
    ((∃ e, naive_forecast s h = .error e) ↔ h = 0 ∨ s.length < h) ∧
      (naive_forecast s h = .error .insufficientData ↔ h = 0 ∨ s = []) ∧
      (0 < s.length → s.length < h →
        naive_forecast s h = .error .broadcastMismatch) := by
  refine ⟨?_, naive_forecast_insufficient_char s h, ?_⟩
  · constructor
    · rintro ⟨e, he⟩
      rcases e with _ | _ | _
      · rcases (naive_forecast_insufficient_char s h).mp he with h1 | h1
        · exact Or.inl h1
        · subst h1
          rcases Nat.eq_zero_or_pos h with h1 | h1
          · exact Or.inl h1
          · exact Or.inr (by simpa using h1)
      · exact absurd he (naive_forecast_not_invalid s h)
      · exact Or.inr ((naive_forecast_mismatch_char s h).mp he).2
    · intro hcase
      by_cases hz : h = 0 ∨ s = []
      · exact ⟨_, (naive_forecast_insufficient_char s h).mpr hz⟩
      · push_neg at hz
        have h1 : 0 < h := Nat.pos_of_ne_zero hz.1
        have h2 : 0 < s.length := List.length_pos.mpr hz.2
        have h3 : s.length < h := by
          rcases hcase with hc | hc
          · omega
          · exact hc
        exact ⟨_, (naive_forecast_mismatch_char s h).mpr ⟨h2, h3⟩⟩
  · intro h1 h2
    exact (naive_forecast_mismatch_char s h).mpr ⟨h1, h2⟩

/-- **C2 witness**: the amended characterisation applied at concrete inputs —
`naive_forecast [(0, 5)] 2` fails (series shorter than horizon), and the
failure is the length-mismatch error. -/
theorem naive_forecast_failure_char_witness :
    (∃ e, naive_forecast [((0 : Int), (5 : ℚ))] 2 = .error e) ∧
      naive_forecast [((0 : Int), (5 : ℚ))] 2 = .error .broadcastMismatch :=
  ⟨(naive_forecast_failure_char [((0 : Int), (5 : ℚ))] 2).1.mpr
      (Or.inr (by decide)),
    (naive_forecast_failure_char [((0 : Int), (5 : ℚ))] 2).2.2 (by decide)
      (by decide)⟩

/-- **C9 (invariants).**  For `1 ≤ horizon ≤ len(series)` the
`ForecastResult` of `naive_forecast` has `len(actual) = len(predicted) =
horizon` and the two series carry the same ordered index (`y_pred` is built
with `index = y_true.index`). -/
theorem naive_forecast_result_invariant (s : PSeries) (h : Nat)
    (r : ForecastResult) (h1 : 1 ≤ h) (h2 : h ≤ s.length)
    (hr : naive_forecast s h = .ok r) :
    r.y_true.length = h ∧ r.y_pred.length = h ∧
      r.y_true.map Prod.fst = r.y_pred.map Prod.fst := by
  rcases (naive_forecast_ok_char s h r).mp hr with ⟨-, -, hres⟩
  have hlen := drop_sub_length s h
  rw [hres]
  dsimp only
  refine ⟨by omega, ?_, ?_⟩
  · rw [List.length_map]
    omega
  · rw [List.map_map]
    rfl

/-- **C9 witness**: the invariant at `sampleSeries`, horizon 3, with the
concrete result of the call. -/
theorem naive_forecast_result_invariant_witness :
    ([((1 : Int), (20 : ℚ)), (2, 30), (3, 40)] : PSeries).length = 3 ∧
      ([((1 : Int), (40 : ℚ)), (2, 40), (3, 40)] : PSeries).length = 3 ∧
      ([((1 : Int), (20 : ℚ)), (2, 30), (3, 40)] : PSeries).map Prod.fst =
        ([((1 : Int), (40 : ℚ)), (2, 40), (3, 40)] : PSeries).map Prod.fst :=
  naive_forecast_result_invariant sampleSeries 3
    ⟨[(1, 20), (2, 30), (3, 40)], [(1, 40), (2, 40), (3, 40)]⟩
    (by decide) (by decide) rfl

/-! ## `train_test_split` -/

theorem sliceIdx_zero (len : Nat) : sliceIdx len 0 = 0 := by
  unfold sliceIdx
  simp

theorem pySlice_upto_neg (s : PSeries) (k : Nat) (hk : 0 < k) :
    pySlice s 0 (-(k : Int)) = s.take (s.length - k) := by
  unfold pySlice
  rw [sliceIdx_neg_nat _ _ hk, sliceIdx_zero]
  simp

theorem pySlice_from_neg (s : PSeries) (k : Nat) (hk : 0 < k) :
    pySlice s (-(k : Int)) s.length = s.drop (s.length - k) := by
  unfold pySlice
  rw [sliceIdx_neg_nat _ _ hk, sliceIdx_coe_nat]
  simp

/-- **C5 (error_handling).**  `train_test_split(series, test_size)` fails —
always with the `InvalidParameterError`-class `ValueError` — iff
`test_size <= 0` or `test_size >= len(series)`; otherwise `test` is the
trailing `test_size` elements, `train` everything before them, and
`train ++ test` reassembles the series. -/
theorem train_test_split_spec (s : PSeries) (ts : Int) :
    ((∃ e, train_test_split s ts = .error e) ↔
        ts ≤ 0 ∨ (s.length : Int) ≤ ts) ∧
      (∀ e, train_test_split s ts = .error e → e = .invalidParameter) ∧
      (∀ tr te, train_test_split s ts = .ok (tr, te) →
        tr = s.take (s.length - ts.toNat) ∧
          te = s.drop (s.length - ts.toNat) ∧ tr ++ te = s ∧
          te.length = ts.toNat) := by
  unfold train_test_split
  by_cases h1 : ts ≤ 0
  · rw [if_pos h1]
    refine ⟨⟨fun _ => Or.inl h1, fun _ => ⟨_, rfl⟩⟩, ?_, ?_⟩
    · intro e he
      injection he with he'
      exact he'.symm
    · intro tr te hc
      cases hc
  · rw [if_neg h1]
    by_cases h2 : (s.length : Int) ≤ ts
    · rw [if_pos h2]
      refine ⟨⟨fun _ => Or.inr h2, fun _ => ⟨_, rfl⟩⟩, ?_, ?_⟩
      · intro e he
        injection he with he'
        exact he'.symm
      · intro tr te hc
        cases hc
    · rw [if_neg h2]
      have hts : 0 < ts := by omega
      have hcast : (ts.toNat : Int) = ts := Int.toNat_of_nonneg (by omega)
      have hk : 0 < ts.toNat := by omega
      have hkl : ts.toNat < s.length := by omega
      refine ⟨⟨?_, ?_⟩, ?_, ?_⟩
      · rintro ⟨e, he⟩
        cases he
      · rintro (hc | hc)
        · exact absurd hc h1
        · exact absurd hc h2
      · intro e he
        cases he
      · intro tr te hc
        injection hc with hpair
        injection hpair with htr hte
        rw [← hcast] at htr hte
        rw [pySlice_upto_neg _ _ hk] at htr
        rw [pySlice_from_neg _ _ hk] at hte
        subst htr
        subst hte
        refine ⟨rfl, rfl, List.take_append_drop _ s, ?_⟩
        simp only [List.length_drop]
        omega

/-- **C5 witness**: the characterisation applied at `sampleSeries` with
`test_size = 3` (success split) and with `test_size = 0` (parameter error). -/
theorem train_test_split_spec_witness :
    ([((0 : Int), (10 : ℚ))] : PSeries) = sampleSeries.take (4 - 3) ∧
      ([((1 : Int), (20 : ℚ)), (2, 30), (3, 40)] : PSeries) =
        sampleSeries.drop (4 - 3) ∧
      ([((0 : Int), (10 : ℚ))] : PSeries) ++
          [((1 : Int), (20 : ℚ)), (2, 30), (3, 40)] = sampleSeries ∧
      ([((1 : Int), (20 : ℚ)), (2, 30), (3, 40)] : PSeries).length = 3 ∧
      (∃ e, train_test_split sampleSeries 0 = .error e) :=
  ⟨((train_test_split_spec sampleSeries 3).2.2 _ _ rfl).1,
    ((train_test_split_spec sampleSeries 3).2.2 _ _ rfl).2.1,
    ((train_test_split_spec sampleSeries 3).2.2 _ _ rfl).2.2.1,
    ((train_test_split_spec sampleSeries 3).2.2 _ _ rfl).2.2.2,
    (train_test_split_spec sampleSeries 0).1.mpr (Or.inl (by decide))⟩

/-! ## MAPE on an all-zero holdout (C10) -/

theorem mape_def (r : ForecastResult) :
    r.mape =
      (npMean ((((r.y_true.map Prod.snd).zip (r.y_pred.map Prod.snd)).filter
          (fun ap => ap.1 ≠ 0)).map
            (fun ap => |(ap.1 - ap.2) / ap.1|))).map (· * 100) := rfl

theorem zip_filter_nonzero_of_all_zero (ys ps : List ℚ)
    (hz : ∀ y ∈ ys, y = 0) :
    (ys.zip ps).filter (fun ap => decide (ap.1 ≠ 0)) = [] := by
  induction ys generalizing ps with
  | nil => simp
  | cons y ys ih =>
    cases ps with
    | nil => simp
    | cons p ps =>
      have hy : y = 0 := hz y (by simp)
      have hy0 : (decide (y ≠ 0)) = false := by simp [hy]
      simp only [List.zip_cons_cons, List.filter_cons, hy0]
      simp only [Bool.false_eq_true, if_false]
      exact ih ps (fun y' hy' => hz y' (by simp [hy']))

/-- **C10 (implicit).**  When the holdout `y_true` is non-empty and every
actual value is zero, the MAPE mask `y_true != 0` filters out every row and
`np.mean` of the empty selection is NaN — modelled as `none`. -/
theorem mape_nan_on_zero_actuals (r : ForecastResult) (hne : r.y_true ≠ [])
    (hz : ∀ p ∈ r.y_true, p.2 = 0) : r.mape = none := by
  rw [mape_def]
  have hz' : ∀ y ∈ r.y_true.map Prod.snd, y = 0 := by
    intro y hy
    rcases List.mem_map.mp hy with ⟨p, hp, rfl⟩
    exact hz p hp
  rw [zip_filter_nonzero_of_all_zero _ _ hz']
  rfl

/-- **C10 witness**: a two-point all-zero holdout gives `mape = none`
(Python: `nan`). -/
theorem mape_nan_on_zero_actuals_witness :
    ForecastResult.mape ⟨[(0, 0), (1, 0)], [(0, 5), (1, 6)]⟩ = none :=
  mape_nan_on_zero_actuals ⟨[(0, 0), (1, 0)], [(0, 5), (1, 6)]⟩
    (by decide) (by decide)

/-! ## `_collect_metrics` (C4) -/

/-- **C4, counterexample.**  The claim says `previous` is the last actual
observation strictly before the forecast horizon.  For
`naive_forecast sampleSeries 3` the holdout is `[20, 30, 40]` and the only
observation strictly before it is `10` — but `_collect_metrics` computes
`previous = y_true.iloc[-2] = 30`, the second-to-last value *inside* the
holdout. -/
theorem collect_metrics_previous_cx :
    ((naive_forecast sampleSeries 3).toOption.bind
        (collect_metrics (fun q => q))).map Metrics.previous = some 30 ∧
      (pySlice sampleSeries 0 (-3)).map Prod.snd = [10] ∧ (30 : ℚ) ≠ 10 := by
  exact ⟨rfl, by decide, by decide⟩

/-- **C4, amended.**  In the metrics bundle, `previous` is the
*second-to-last actual of the holdout window itself* (`y_true.iloc[-2]`),
falling back to `latest` when the holdout has fewer than two points (in which
case `delta_pct = 0`); and `delta_pct = (latest - previous) / previous * 100`
with the special case `0` when `previous == 0`. -/
theorem collect_metrics_previous_spec (sqrtFn : ℚ → ℚ) (r : ForecastResult)
    (m : Metrics) (hm : collect_metrics sqrtFn r = some m) :
    (r.y_pred.map Prod.snd).getLast? = some m.latest ∧
      (1 < r.y_true.length →
        m.previous = (r.y_true.map Prod.snd).getD (r.y_true.length - 2) 0) ∧
      (r.y_true.length ≤ 1 → m.previous = m.latest ∧ m.delta_pct = 0) ∧
      (m.previous ≠ 0 →
        m.delta_pct = ((m.latest - m.previous) / m.previous) * 100) ∧
      (m.previous = 0 → m.delta_pct = 0) := by
  unfold collect_metrics at hm
  rcases hg : (r.y_pred.map Prod.snd).getLast? with _ | latest
  · rw [hg] at hm
    cases hm
  · rw [hg] at hm
    injection hm with hm'
    subst hm'
    dsimp only
    by_cases hlen : 1 < r.y_true.length
    · rw [if_pos hlen]
      by_cases hp : (r.y_true.map Prod.snd).getD (r.y_true.length - 2) 0 ≠ 0
      · rw [if_pos hp]
        exact ⟨rfl, fun _ => rfl, fun hc => absurd hc (by omega),
          fun _ => rfl, fun hc => absurd hc hp⟩
      · rw [if_neg hp]
        push_neg at hp
        exact ⟨rfl, fun _ => rfl, fun hc => absurd hc (by omega),
          fun hc => absurd hp hc, fun _ => rfl⟩
    · rw [if_neg hlen]
      by_cases hp : latest ≠ 0
      · rw [if_pos hp]
        refine ⟨rfl, fun hc => absurd hc hlen, fun _ => ⟨rfl, by ring⟩,
          fun _ => rfl, fun hc => absurd hc hp⟩
      · rw [if_neg hp]
        push_neg at hp
        exact ⟨rfl, fun hc => absurd hc hlen, fun _ => ⟨rfl, rfl⟩,
          fun hc => absurd hp hc, fun _ => rfl⟩

/-- **C4 witness**: the amended statement at the concrete result of
`naive_forecast sampleSeries 3` — `latest = 40`, `previous = 30` (the
second-to-last holdout actual), `delta_pct = (40 - 30)/30 * 100 = 100/3`. -/
theorem collect_metrics_previous_spec_witness :
    (sampleResult.y_pred.map Prod.snd).getLast? = some sampleMetrics.latest ∧
      (1 < sampleResult.y_true.length →
        sampleMetrics.previous =
          (sampleResult.y_true.map Prod.snd).getD
            (sampleResult.y_true.length - 2) 0) ∧
      (sampleResult.y_true.length ≤ 1 →
        sampleMetrics.previous = sampleMetrics.latest ∧
          sampleMetrics.delta_pct = 0) ∧
      (sampleMetrics.previous ≠ 0 →
        sampleMetrics.delta_pct =
          ((sampleMetrics.latest - sampleMetrics.previous) /
              sampleMetrics.previous) * 100) ∧
      (sampleMetrics.previous = 0 → sampleMetrics.delta_pct = 0) :=
  collect_metrics_previous_spec (fun q => q) sampleResult sampleMetrics
    (by
      have habs : |(1 : ℚ) / 3| = 1 / 3 := abs_of_nonneg (by norm_num)
      norm_num [collect_metrics, sampleResult, sampleMetrics,
        ForecastResult.rmse, ForecastResult.mse, ForecastResult.mae,
        ForecastResult.mape, npMean, habs]
      norm_num [List.cons_ne_nil])

/-! ## Data Source Resolver (C6) and synthetic determinism (C8) -/

theorem getLast?_range_map (n : Nat) (hn : 0 < n) (f : Nat → Int) :
    ((List.range n).map f).getLast? = some (f (n - 1)) := by
  obtain ⟨m, rfl⟩ : ∃ m, n = m + 1 := ⟨n - 1, by omega⟩
  rw [List.range_succ, List.map_append]
  simp

/-- **C6 (functional_correctness).**  With no live-feed credential the
resolver returns provenance `"synthetic"` and the synthetic frame: exactly
`max(horizon + 48, 72)` hourly timestamps (consecutive hours starting at
`24·today - (hours - 1)`), ending at the target date's start of day
(`24 · today`), and of length at least `horizon`. -/
theorem resolver_synthetic_fallback (env : Env) (horizon : Int)
    (hkey : env.settings.nordpool_api_key = none) :
    (load_price_frame env horizon).2 = "synthetic" ∧
      (load_price_frame env horizon).1.length = (max (horizon + 48) 72).toNat ∧
      horizon ≤ ((load_price_frame env horizon).1.length : Int) ∧
      (load_price_frame env horizon).1.map Prod.fst =
        (List.range (max (horizon + 48) 72).toNat).map
          (fun (i : Nat) => 24 * (env.today : Int) -
            (((max (horizon + 48) 72).toNat : Int) - 1) + (i : Int)) ∧
      ((load_price_frame env horizon).1.map Prod.fst).getLast? =
        some (24 * (env.today : Int)) := by
  have hload : load_price_frame env horizon =
      (generate_synthetic_frame env.sinFn env.normalDraw env.ambientRng
        env.today horizon, "synthetic") := by
    unfold load_price_frame
    rw [hkey]
  rw [hload]
  have hpos : 0 < (max (horizon + 48) 72).toNat := by
    have : (72 : Int) ≤ max (horizon + 48) 72 := le_max_right _ _
    omega
  have hge : horizon ≤ ((max (horizon + 48) 72).toNat : Int) := by
    have h1 : horizon + 48 ≤ max (horizon + 48) 72 := le_max_left _ _
    have h2 : (72 : Int) ≤ max (horizon + 48) 72 := le_max_right _ _
    omega
  unfold generate_synthetic_frame
  refine ⟨rfl, by simp, by simpa using hge, ?_, ?_⟩
  · rw [List.map_map]
    rfl
  · rw [List.map_map]
    have := getLast?_range_map (max (horizon + 48) 72).toNat hpos
      (fun (i : Nat) => 24 * (env.today : Int) -
        (((max (horizon + 48) 72).toNat : Int) - 1) + (i : Int))
    rw [show ((List.range (max (horizon + 48) 72).toNat).map
        (Prod.fst ∘ fun (i : Nat) =>
          (24 * (env.today : Int) -
              (((max (horizon + 48) 72).toNat : Int) - 1) + (i : Int),
            60 + 5 * env.sinFn i +
              (-2 + 4 * (i : ℚ) / (((max (horizon + 48) 72).toNat : ℚ) - 1)) +
                env.normalDraw env.today i))) =
        ((List.range (max (horizon + 48) 72).toNat).map
          (fun (i : Nat) => 24 * (env.today : Int) -
            (((max (horizon + 48) 72).toNat : Int) - 1) + (i : Int))) from rfl]
    rw [this]
    congr 1
    omega

/-- **C6 witness**: the resolver fallback at `envOk` with horizon 24
(`hours = max(24 + 48, 72) = 72`). -/
theorem resolver_synthetic_fallback_witness :
    (load_price_frame envOk 24).2 = "synthetic" ∧
      (load_price_frame envOk 24).1.length = (max ((24 : Int) + 48) 72).toNat ∧
      (24 : Int) ≤ ((load_price_frame envOk 24).1.length : Int) ∧
      (load_price_frame envOk 24).1.map Prod.fst =
        (List.range (max ((24 : Int) + 48) 72).toNat).map
          (fun (i : Nat) => 24 * ((739000 : Nat) : Int) -
            (((max ((24 : Int) + 48) 72).toNat : Int) - 1) + (i : Int)) ∧
      ((load_price_frame envOk 24).1.map Prod.fst).getLast? =
        some (24 * ((739000 : Nat) : Int)) :=
  resolver_synthetic_fallback envOk 24 rfl

/-- **C8 (determinism hyperproperty).**  The synthetic generator is a pure
function of the target date's ordinal and the horizon: it builds a fresh
`np.random.default_rng(seed=target_date.toordinal())`, so its output is
independent of the ambient process RNG state, and two calls with the same
date and horizon (and the same runtime `sin`/normal-stream functions) return
identical timestamp and price sequences. -/
theorem synthetic_generation_deterministic (sinFn : Nat → ℚ)
    (normalDraw : Nat → Nat → ℚ) (amb amb' : Nat → ℚ) (d : Nat)
    (horizon : Int) :
    generate_synthetic_frame sinFn normalDraw amb d horizon =
      generate_synthetic_frame sinFn normalDraw amb' d horizon := rfl

/-! ## Rolling evaluator (C7) -/

theorem lt_pyRangeCount_iff (start stop step : Int) (hs : 0 < step) (i : Nat) :
    i < pyRangeCount start stop step ↔ start + (i : Int) * step < stop := by
  unfold pyRangeCount
  rw [if_pos hs, Int.lt_toNat]
  have hmul : ((i : Int) + 1) * step = (i : Int) * step + step := by ring
  constructor
  · intro h
    have h1 : (i : Int) + 1 ≤ (stop - start + step - 1) / step := by omega
    have h2 : ((i : Int) + 1) * step ≤ stop - start + step - 1 :=
      (Int.le_ediv_iff_mul_le hs).mp h1
    omega
  · intro h
    have h2 : ((i : Int) + 1) * step ≤ stop - start + step - 1 := by omega
    have h1 : (i : Int) + 1 ≤ (stop - start + step - 1) / step :=
      (Int.le_ediv_iff_mul_le hs).mpr h2
    omega

theorem pyRange_get? (start stop step : Int) (i : Nat) :
    (pyRange start stop step).get? i =
      if i < pyRangeCount start stop step then
        some (start + (i : Int) * step) else none := by
  unfold pyRange
  rw [List.get?_map]
  by_cases h : i < pyRangeCount start stop step
  · rw [List.get?_range h, if_pos h]
    rfl
  · rw [if_neg h, List.get?_eq_none.mpr (by simpa using Nat.le_of_not_lt h)]
    rfl

theorem pyRange_mem_iff (start stop step : Int) (hs : 0 < step) (a : Int) :
    a ∈ pyRange start stop step ↔
      ∃ i : Nat, a = start + (i : Int) * step ∧ a < stop := by
  unfold pyRange
  rw [List.mem_map]
  constructor
  · rintro ⟨i, hi, rfl⟩
    exact ⟨i, rfl,
      (lt_pyRangeCount_iff start stop step hs i).mp (List.mem_range.mp hi)⟩
  · rintro ⟨i, rfl, hlt⟩
    exact ⟨i, List.mem_range.mpr
      ((lt_pyRangeCount_iff start stop step hs i).mpr hlt), rfl⟩

theorem pySlice_nat (s : PSeries) (a b : Nat) (ha : a ≤ s.length)
    (hb : b ≤ s.length) :
    pySlice s (a : Int) (b : Int) = (s.take b).drop a := by
  unfold pySlice
  rw [sliceIdx_coe_nat, sliceIdx_coe_nat]
  have h1 : min b s.length = b := by omega
  have h2 : min a s.length = a := by omega
  rw [h1, h2]

theorem pySlice_nat_length (s : PSeries) (a b : Nat) (hab : a ≤ b)
    (hb : b ≤ s.length) :
    (pySlice s (a : Int) (b : Int)).length = b - a := by
  rw [pySlice_nat s a b (le_trans hab hb) hb]
  simp only [List.length_drop, List.length_take]
  omega

/-- **C7, counterexample.**  The claim quantifies over every horizon, but for
`horizon = 0` (with positive window and step) the trial at `start = 1` on a
one-point series calls `naive_forecast(window ++ [], 0)`, whose holdout
`tail(0)` is empty: the Python generator raises the insufficient-data
`ValueError` instead of yielding a `ForecastResult`. -/
theorem rolling_forecast_zero_horizon_cx :
    rolling_forecast [((0 : Int), (1 : ℚ))] 0 ⟨1, 1⟩ =
        [.error .insufficientData] ∧
      ∀ r : ForecastResult,
        (Except.error PdError.insufficientData :
          Except PdError ForecastResult) ≠ .ok r := by
  constructor
  · rfl
  · intro r hc
    cases hc

/-- **C7, amended.**  For every series, every *positive* horizon, and every
config with positive `window_size` and `step_size`: the number of yielded
trials is determined by `len(series)`, `horizon` and the config alone; the
start positions are exactly `window_size, window_size + step_size, …`, all
lying in `[window_size, len(series) - horizon]`; and the `i`-th yielded item
is the (successful) naive forecast of `series[start-window_size:start] ++
series[start:start+horizon]` for the `i`-th start. -/
theorem rolling_forecast_spec (s : PSeries) (h : Nat) (c : RollingWindowConfig)
    (hw : 0 < c.window_size) (hstep : 0 < c.step_size) (hh : 1 ≤ h) :
    (∀ s' : PSeries, s'.length = s.length →
      (rolling_forecast s' h c).length = (rolling_forecast s h c).length) ∧
      (∀ a : Int,
        a ∈ pyRange (c.window_size : Int) ((s.length : Int) - h + 1)
            (c.step_size : Int) ↔
          (∃ i : Nat, a = (c.window_size : Int) + (i : Int) * c.step_size) ∧
            (c.window_size : Int) ≤ a ∧ a ≤ (s.length : Int) - h) ∧
      (∀ i : Nat, i < (rolling_forecast s h c).length →
        ∃ start : Int,
          (pyRange (c.window_size : Int) ((s.length : Int) - h + 1)
              (c.step_size : Int)).get? i = some start ∧
            (rolling_forecast s h c).get? i =
              some (naive_forecast
                (pySlice s (start - c.window_size) start ++
                  pySlice s start (start + h)) h) ∧
            ∃ r, (rolling_forecast s h c).get? i = some (.ok r)) := by
  have hstep' : (0 : Int) < (c.step_size : Int) := by exact_mod_cast hstep
  refine ⟨?_, ?_, ?_⟩
  · intro s' hlen
    simp [rolling_forecast, pyRange, hlen]
  · intro a
    rw [pyRange_mem_iff _ _ _ hstep' a]
    constructor
    · rintro ⟨i, rfl, hlt⟩
      have hnn : (0 : Int) ≤ (i : Int) * c.step_size :=
        mul_nonneg (by positivity) (by positivity)
      exact ⟨⟨i, rfl⟩, by omega, by omega⟩
    · rintro ⟨⟨i, rfl⟩, -, hle⟩
      exact ⟨i, rfl, by omega⟩
  · intro i hi
    have hcount : i < pyRangeCount (c.window_size : Int)
        ((s.length : Int) - h + 1) (c.step_size : Int) := by
      simpa [rolling_forecast, pyRange] using hi
    have hlt := (lt_pyRangeCount_iff _ _ _ hstep' i).mp hcount
    obtain ⟨k, hk⟩ : ∃ k : Nat, (i : Int) * (c.step_size : Int) = (k : Int) :=
      ⟨i * c.step_size, by push_cast; ring⟩
    rw [hk] at hlt
    have hget : (rolling_forecast s h c).get? i =
        some (naive_forecast
          (pySlice s (((c.window_size : Int) + (i : Int) * c.step_size) -
              c.window_size) ((c.window_size : Int) + (i : Int) * c.step_size) ++
            pySlice s ((c.window_size : Int) + (i : Int) * c.step_size)
              (((c.window_size : Int) + (i : Int) * c.step_size) + h)) h) := by
      unfold rolling_forecast
      rw [List.get?_map, pyRange_get?, if_pos hcount]
      rfl
    refine ⟨(c.window_size : Int) + (i : Int) * c.step_size,
      by rw [pyRange_get?, if_pos hcount], hget, ?_⟩
    have e2 : ((c.window_size : Int) + (i : Int) * c.step_size) -
        c.window_size = (k : Int) := by rw [hk]; ring
    have e1 : (c.window_size : Int) + (i : Int) * c.step_size =
        ((c.window_size + k : Nat) : Int) := by rw [hk]; push_cast; ring
    have e3 : ((c.window_size : Int) + (i : Int) * c.step_size) + h =
        ((c.window_size + k + h : Nat) : Int) := by rw [hk]; push_cast; ring
    have hle : c.window_size + k + h ≤ s.length := by omega
    have hwin : (pySlice s (k : Int) ((c.window_size + k : Nat) : Int)).length =
        c.window_size := by
      rw [pySlice_nat_length s k (c.window_size + k) (by omega) (by omega)]
      omega
    have hact : (pySlice s ((c.window_size + k : Nat) : Int)
        ((c.window_size + k + h : Nat) : Int)).length = h := by
      rw [pySlice_nat_length s (c.window_size + k) (c.window_size + k + h)
        (by omega) (by omega)]
      omega
    rw [hget, e2, e3, e1]
    have hX : h ≤ (pySlice s (k : Int) ((c.window_size + k : Nat) : Int) ++
        pySlice s ((c.window_size + k : Nat) : Int)
          ((c.window_size + k + h : Nat) : Int)).length := by
      rw [List.length_append, hwin, hact]
      omega
    exact ⟨_, congrArg some ((naive_forecast_ok_char _ _ _).mpr ⟨hh, hX, rfl⟩)⟩

/-- **C7 witness**: the amended statement at a six-point series, horizon 2,
window 2, step 1 (starts 2, 3, 4). -/
theorem rolling_forecast_spec_witness :
    (∀ s' : PSeries, s'.length = rollSample.length →
      (rolling_forecast s' 2 ⟨2, 1⟩).length =
        (rolling_forecast rollSample 2 ⟨2, 1⟩).length) ∧
      (∀ a : Int,
        a ∈ pyRange 2 ((rollSample.length : Int) - 2 + 1) 1 ↔
          (∃ i : Nat, a = 2 + (i : Int) * 1) ∧
            (2 : Int) ≤ a ∧ a ≤ (rollSample.length : Int) - 2) ∧
      (∀ i : Nat, i < (rolling_forecast rollSample 2 ⟨2, 1⟩).length →
        ∃ start : Int,
          (pyRange 2 ((rollSample.length : Int) - 2 + 1) 1).get? i =
              some start ∧
            (rolling_forecast rollSample 2 ⟨2, 1⟩).get? i =
              some (naive_forecast
                (pySlice rollSample (start - 2) start ++
                  pySlice rollSample start (start + 2)) 2) ∧
            ∃ r, (rolling_forecast rollSample 2 ⟨2, 1⟩).get? i =
              some (.ok r)) :=
  rolling_forecast_spec rollSample 2 ⟨2, 1⟩ (by decide) (by decide) (by decide)

/-! ## Pipeline orchestrator (C3) -/

theorem train_test_split_ok_parts (s : PSeries) (ts : Int) (tr te : PSeries)
    (hok : train_test_split s ts = .ok (tr, te)) :
    0 < ts ∧ ts < (s.length : Int) ∧ tr ++ te = s := by
  unfold train_test_split at hok
  by_cases h1 : ts ≤ 0
  · rw [if_pos h1] at hok
    cases hok
  · rw [if_neg h1] at hok
    by_cases h2 : (s.length : Int) ≤ ts
    · rw [if_pos h2] at hok
      cases hok
    · rw [if_neg h2] at hok
      injection hok with hpair
      injection hpair with htr hte
      have hcast : (ts.toNat : Int) = ts := Int.toNat_of_nonneg (by omega)
      refine ⟨by omega, by omega, ?_⟩
      rw [← htr, ← hte, ← hcast,
        pySlice_upto_neg _ _ (by omega), pySlice_from_neg _ _ (by omega)]
      exact List.take_append_drop _ s

theorem collect_metrics_isSome (f : ℚ → ℚ) (r : ForecastResult)
    (hne : r.y_pred ≠ []) : ∃ m, collect_metrics f r = some m := by
  unfold collect_metrics
  rcases hg : (r.y_pred.map Prod.snd).getLast? with _ | latest
  · rw [List.getLast?_eq_none_iff] at hg
    exact absurd (List.map_eq_nil.mp hg) hne
  · exact ⟨_, rfl⟩

theorem naive_forecast_ok_y_pred_ne_nil (s : PSeries) (h : Nat)
    (r : ForecastResult) (hok : naive_forecast s h = .ok r) (hh : 1 ≤ h) :
    r.y_pred ≠ [] := by
  rcases (naive_forecast_ok_char s h r).mp hok with ⟨-, h2, hres⟩
  rw [hres]
  intro hc
  have hl := congrArg List.length hc
  rw [List.length_map, drop_sub_length] at hl
  simp only [List.length_nil] at hl
  omega

/-- A successful run's trace is the fetch attempt (iff a Nord Pool key is
configured), the Slack post, the chart render, and then the best-effort
fan-out. -/
theorem run_ok_trace (env : Env) (horizon : Int) (out : PipelineOutput)
    (hout : (run env horizon).1 = .ok out) :
    (run env horizon).2 =
      (if env.settings.nordpool_api_key.isSome then [Step.fetch] else []) ++
        [Step.slackPost, Step.render] ++ bestEffortTrace env := by
  revert hout
  unfold run
  dsimp only
  split
  · intro hc
    cases hc
  · split
    · intro hc
      cases hc
    · split
      · intro hc
        cases hc
      · intro hc
        cases hc
      · intro hc
        cases hc
      · split
        · intro hc
          cases hc
        · split
          · intro hc
            cases hc
          · intro _
            rfl

/-- **C3 (error_handling).**  A `run` either returns a populated
`PipelineOutput` or raises exactly one of the three fatal errors —
insufficient data, bad split parameters, or Slack `post_message` failure; no
other exception escapes (in particular never the modelled `unexpected`
class).  Moreover the outcome of the run is independent of the outcomes of
the five best-effort calls (chart upload, database insert, Notion page,
GitHub plot and history commits), and a successful run's trace contains the
database insert and — when the respective credentials are configured — the
Notion and GitHub attempts, whatever the other best-effort calls did. -/
theorem run_failure_isolation (env : Env) (horizon : Int) :
    (∀ e, (run env horizon).1 = .error e →
      e = .insufficientData ∨ e = .invalidParameter ∨ e = .slackFailure) ∧
      (∀ u d n g1 g2 : Except String Unit,
        (run (withBestEffort env u d n g1 g2) horizon).1 =
          (run env horizon).1) ∧
      (∀ out, (run env horizon).1 = .ok out →
        Step.dbRecord ∈ (run env horizon).2 ∧
          (env.settings.notion_token.isSome ∧
              env.settings.notion_database_id.isSome →
            Step.notionLog ∈ (run env horizon).2) ∧
          (env.settings.github_token.isSome ∧
              env.settings.github_repo.isSome →
            Step.githubPlot ∈ (run env horizon).2)) := by
  refine ⟨?_, ?_, ?_⟩
  · intro e he
    unfold run at he
    dsimp only at he
    split at he
    · injection he with he'
      exact Or.inl he'.symm
    · rename_i hlen
      split at he
      · injection he with he'
        exact Or.inr (Or.inl he'.symm)
      · rename_i train test hsplit
        obtain ⟨hts, htslen, happ⟩ :=
          train_test_split_ok_parts _ _ _ _ hsplit
        have hlen' : (train ++ test).length =
            (shapeSeries (load_price_frame env horizon).1).length := by
          rw [happ]
        have hok : ∀ e', naive_forecast (train ++ test) horizon.toNat ≠
            .error e' := by
          intro e' hc
          rcases e' with _ | _ | _
          · rcases (naive_forecast_insufficient_char _ _).mp hc with h0 | h0
            · omega
            · rw [h0] at hlen'
              simp at hlen'
              omega
          · exact naive_forecast_not_invalid _ _ hc
          · have := (naive_forecast_mismatch_char _ _).mp hc
            omega
        split at he
        · rename_i hnf
          exact absurd hnf (hok _)
        · rename_i hnf
          exact absurd hnf (hok _)
        · rename_i hnf
          exact absurd hnf (hok _)
        · rename_i result hnf
          split at he
          · rename_i hcm
            obtain ⟨m, hm⟩ := collect_metrics_isSome env.sqrtFn result
              (naive_forecast_ok_y_pred_ne_nil _ _ _ hnf (by omega))
            rw [hcm] at hm
            cases hm
          · split at he
            · injection he with he'
              exact Or.inr (Or.inr he'.symm)
            · cases he
  · intro u d n g1 g2
    unfold run load_price_frame withBestEffort
    dsimp only
    repeat' split <;> try rfl
  · intro out hout
    rw [run_ok_trace env horizon out hout]
    refine ⟨?_, ?_, ?_⟩
    · simp [bestEffortTrace]
    · rintro ⟨hn1, hn2⟩
      simp [bestEffortTrace, hn1, hn2]
    · rintro ⟨hg1, hg2⟩
      simp [bestEffortTrace, hg1, hg2]

/-- **C3 witness**: at `envSlackFail` (synthetic data, Slack post fails) the
run raises the primary-notification fatal error and that error is among the
three; the run's result is unchanged when all five best-effort calls fail;
and at `envOk` the successful run's trace contains the database insert. -/
theorem run_failure_isolation_witness :
    (FatalError.slackFailure = FatalError.insufficientData ∨
        FatalError.slackFailure = FatalError.invalidParameter ∨
        FatalError.slackFailure = FatalError.slackFailure) ∧
      (run (withBestEffort envSlackFail (.error "u") (.error "d") (.error "n")
          (.error "g1") (.error "g2")) 24).1 = (run envSlackFail 24).1 ∧
      Step.dbRecord ∈ (run envOk 24).2 :=
  ⟨(run_failure_isolation envSlackFail 24).1 .slackFailure rfl,
    (run_failure_isolation envSlackFail 24).2.1 (.error "u") (.error "d")
      (.error "n") (.error "g1") (.error "g2"),
    ((run_failure_isolation envOk 24).2.2 _ rfl).1⟩
